import Mathlib

/-!
Verification of the Nominatim Workshop country scraper (`src/main.py`).

The file shallowly embeds the three components of the program:

* the resource filter `_block_unnecessary_requests` (its host patterns,
  resource-type set and abort decision);
* the card extractor `parse_cards` (a pure function from the list of
  result-card DOM nodes, each modelled by the texts of its optional sub-nodes,
  to the list of extracted records);
* the acquisition controller `scrape_with_playwright` (the bounded retry loop,
  with the page's behaviour per attempt supplied by an environment: whether
  the navigation/wait steps succeed, what `parse_cards` returns before and
  after the 1.5 s grace delay, and whether the best-effort screenshot and
  reload succeed), together with `save_csv` and `main`.

Machine-level concerns (real time, the browser engine, the file system) are
abstracted: waits are modelled by their success/failure outcome, the CSV file
by its list of rows.
-/

namespace NominatimScraper

/-! String primitives. Python's `str.strip`, `str.split(",")`,
`str.split(",", 1)`, `", ".join` and the `in` substring test are defined here
by structural recursion over the character list of the string, so that every
definition evaluates by kernel reduction. -/

/-- Python's `str.strip()`: drop leading and trailing whitespace. -/
def stripL (l : List Char) : List Char :=
  ((l.dropWhile Char.isWhitespace).reverse.dropWhile Char.isWhitespace).reverse

/-- Python's `str.strip()` on strings. -/
def strip (s : String) : String :=
  ⟨stripL s.data⟩

/-- Python's `s.split(",")` on the character list: split at every comma,
keeping empty segments, so the result has one more element than the number of
commas. -/
def split_comma : List Char → List (List Char)
  | [] => [[]]
  | c :: cs =>
    if c = ',' then [] :: split_comma cs
    else
      match split_comma cs with
      | [] => [[c]]
      | h :: t => (c :: h) :: t

/-- Python's `s.split(",")` on strings. -/
def split_on_comma (s : String) : List String :=
  (split_comma s.data).map String.mk

/-- The decomposition of a character list at its first comma, `none` when it
has no comma: `s.split(",", 1)` succeeds exactly when `"," in s`. -/
def split_first_comma : List Char → Option (List Char × List Char)
  | [] => none
  | c :: cs =>
    if c = ',' then some ([], cs)
    else (split_first_comma cs).map fun p => (c :: p.1, p.2)

/-- Python's `sep.join(parts)`. -/
def join_with (sep : String) : List String → String
  | [] => ""
  | [s] => s
  | s :: ss => s ++ sep ++ join_with sep ss

/-- Character-list prefix test, the building block of substring containment. -/
def isPrefixOfL : List Char → List Char → Bool
  | [], _ => true
  | _ :: _, [] => false
  | a :: as, b :: bs => a == b && isPrefixOfL as bs

/-- Character-list substring containment: `pat` occurs contiguously in `s`. -/
def containsL (pat : List Char) : List Char → Bool
  | [] => isPrefixOfL pat []
  | b :: bs => isPrefixOfL pat (b :: bs) || containsL pat bs

/-- Python's `pat in s` substring test on strings. -/
def strContains (s pat : String) : Bool :=
  containsL pat.toList s.toList

/-- Hosts blocked by `_block_unnecessary_requests` (main.py lines 18-26). -/
def BLOCK_HOST_PATTERNS : List String :=
  ["tile.openstreetmap.org",
   "tiles.openstreetmap.org",
   "basemaps.cartocdn.com",
   "cartocdn.com",
   "fastly.net",
   "gstatic.com",
   "googleapis.com"]

/-- Resource types blocked by `_block_unnecessary_requests` (main.py line 27);
the Python set is modelled as a list. -/
def BLOCK_RESOURCE_TYPES : List String :=
  ["image", "font", "media"]

/-- Predicate `should_block(url)` from main.py lines 29-30: the url contains one of the
blocked host patterns. -/
def should_block (url : String) : Bool :=
  BLOCK_HOST_PATTERNS.any fun h => strContains url h

/-- The abort decision of the route handler installed by
`_block_unnecessary_requests` (main.py lines 32-34): abort when the request's
resource type is blocked or `should_block` holds of its url. -/
def route_aborts (resource_type url : String) : Bool :=
  BLOCK_RESOURCE_TYPES.contains resource_type || should_block url

/-- One result card (`div[role="listitem"]`): the inner texts of its optional
sub-nodes `span.name`, `span.type` and `p.coords`; `none` when the sub-node is
absent from the card. -/
structure Card where
  name_full : Option String
  type_text : Option String
  coords_text : Option String
deriving DecidableEq

/-- One extracted record, the dictionary built at main.py lines 64-71 (keys
"Name", "Address", "Country", "Type", "Latitude", "Longitude"); fields are
named after the local variables of `parse_cards`. -/
structure PlaceRecord where
  name : String
  address : String
  country : String
  btype : String
  lat : String
  lon : String
deriving DecidableEq

/-- Main.py line 49: `[p.strip() for p in full_name.split(",") if p.strip()]`,
the comma-split segments of the label, trimmed, with empty segments dropped. -/
def parts_of (full_name : String) : List String :=
  ((split_on_comma full_name).map strip).filter fun p => p ≠ ""

/-- Main.py line 62: `lat, lon = [c.strip() for c in txt.split(",", 1)]`, run
only under `if "," in txt`, so the `none` branch is unreachable there and is
completed with empty strings. -/
def split_once (txt : String) : String × String :=
  match split_first_comma txt.data with
  | some p => (strip ⟨p.1⟩, strip ⟨p.2⟩)
  | none => ("", "")

/-- The body of the `for card in cards` loop of `parse_cards` (main.py lines
43-71): `none` when the card lacks its `span.name` sub-node and is skipped by
`continue`, otherwise the record appended to `results`. -/
def parse_card (card : Card) : Option PlaceRecord :=
  match card.name_full with
  | none => none
  | some s =>
    let full_name := strip s
    let parts := parts_of full_name
    let name := parts.headD ""
    let country := if parts.length > 1 then parts.getLastD "" else ""
    let address :=
      if parts.length > 2 then join_with ", " ((parts.drop 1).dropLast) else ""
    let btype :=
      match card.type_text with
      | some t => strip t
      | none => ""
    let latlon :=
      match card.coords_text with
      | none => ("", "")
      | some c =>
        let txt := strip c
        if strContains txt "," then split_once txt else ("", "")
    some { name := name, address := address, country := country, btype := btype,
           lat := latlon.1, lon := latlon.2 }

/-- Function `parse_cards` (main.py lines 37-72) on the page's list of result cards. -/
def parse_cards (cards : List Card) : List PlaceRecord :=
  cards.filterMap parse_card

/-- The error caught by the attempt loop's handler (main.py line 134). -/
inductive AttemptError where
  /-- A `PlaywrightTimeoutError` from `goto` / `wait_for_selector`. -/
  | timeout
  /-- The `RuntimeError("No cards parsed (empty result).")` of main.py line 132. -/
  | noCards
deriving DecidableEq

/-- The page's behaviour during one attempt of the retry loop: whether the
`goto` / `wait_for_selector` steps all succeed, what `parse_cards` returns at
the first extraction and at the re-extraction after the 1.5 s grace delay, and
whether the best-effort error screenshot and reload succeed. -/
structure AttemptBehavior where
  waits_ok : Bool
  parse1 : List PlaceRecord
  parse2 : List PlaceRecord
  screenshot_ok : Bool
  reload_ok : Bool

/-- The terminal error of main.py line 149:
`RuntimeError(f"Failed after {max_retries} attempts: {last_error}")`. -/
structure ScrapeFailure where
  max_retries : Nat
  last_error : Option AttemptError
deriving DecidableEq

/-- The observable outcome of `scrape_with_playwright`: the returned data with
the 1-based index of the successful attempt (or the terminal failure), how
often `browser.close()` ran, and how many loop iterations were entered. -/
structure ScrapeOutcome where
  result : Except ScrapeFailure (List PlaceRecord × Nat)
  closes : Nat
  attempts_run : Nat

/-- A fallible best-effort operation, by whether it succeeds. -/
def try_op (ok : Bool) : Except Unit Unit :=
  if ok then Except.ok () else Except.error ()

/-- Python's `try: op() except Exception: pass` around the screenshot and the
reload (main.py lines 137-145): any outcome is discarded. -/
def swallow (_r : Except Unit Unit) : Unit := ()

/-- The retry loop of `scrape_with_playwright` (main.py lines 100-149), from a
given 1-based attempt index with a given number of remaining iterations and
the `last_error` accumulator. Python's `if data:` truthiness test on a list is
its non-emptiness, written here as a comparison with `[]`. -/
def scrape_go (env : Nat → AttemptBehavior) (max_retries : Nat) :
    Nat → Nat → Option AttemptError → ScrapeOutcome
  | _, 0, last_error =>
    { result := Except.error { max_retries := max_retries, last_error := last_error },
      closes := 1, attempts_run := 0 }
  | attempt, remaining + 1, _ =>
    let a := env attempt
    if a.waits_ok then
      if a.parse1 = [] then
        if a.parse2 = [] then
          let _ := swallow (try_op a.screenshot_ok)
          let _ := swallow (try_op a.reload_ok)
          let o := scrape_go env max_retries (attempt + 1) remaining (some AttemptError.noCards)
          { o with attempts_run := o.attempts_run + 1 }
        else
          { result := Except.ok (a.parse2, attempt), closes := 1, attempts_run := 1 }
      else
        { result := Except.ok (a.parse1, attempt), closes := 1, attempts_run := 1 }
    else
      let _ := swallow (try_op a.screenshot_ok)
      let _ := swallow (try_op a.reload_ok)
      let o := scrape_go env max_retries (attempt + 1) remaining (some AttemptError.timeout)
      { o with attempts_run := o.attempts_run + 1 }

/-- Function `scrape_with_playwright(url, max_retries, timeout_ms)` (main.py lines
75-149): the loop runs `for attempt in range(1, max_retries + 1)` starting
with `last_error = None`. -/
def scrape_with_playwright (env : Nat → AttemptBehavior) (max_retries : Nat) : ScrapeOutcome :=
  scrape_go env max_retries 1 max_retries none

/-- The CSV header of `save_csv` (main.py line 155). -/
def FIELDNAMES : List String :=
  ["Name", "Address", "Country", "Type", "Latitude", "Longitude"]

/-- One CSV row of a record, in the `DictWriter` field order. -/
def record_row (r : PlaceRecord) : List String :=
  [r.name, r.address, r.country, r.btype, r.lat, r.lon]

/-- Function `save_csv` (main.py lines 152-157): the written file as its list of rows,
header first. -/
def save_csv (data : List PlaceRecord) : List (List String) :=
  FIELDNAMES :: data.map record_row

/-- Constant `OUT_CSV` of main.py line 7. -/
def OUT_CSV : String := "output/Workshop&country.csv"

/-- What a run of `main` leaves behind: the output file's rows (when written),
the printed summary line, and the propagated terminal failure (when raised). -/
structure MainOutcome where
  out_file : Option (List (List String))
  summary : Option String
  failure : Option ScrapeFailure

/-- Function `main` (main.py lines 160-163): scrape with `max_retries = 3`; on success
write the CSV and print the summary; a scrape failure propagates before
`save_csv` is reached, so no file is written. -/
def main_run (env : Nat → AttemptBehavior) : MainOutcome :=
  match (scrape_with_playwright env 3).result with
  | Except.ok (data, _) =>
    { out_file := some (save_csv data),
      summary := some ("Saved " ++ toString data.length ++ " records to " ++ OUT_CSV),
      failure := none }
  | Except.error e =>
    { out_file := none, summary := none, failure := some e }

/-! Theorems about the card extractor. -/

/-- Unfolding of `parse_card` on a card whose `span.name` sub-node is present:
the record's fields in terms of `parts_of` and the coordinate text. -/
theorem parse_card_eq (t : String) (ty co : Option String) :
    parse_card ⟨some t, ty, co⟩ = some {
      name := (parts_of (strip t)).headD "",
      address := if (parts_of (strip t)).length > 2 then
          join_with ", " (((parts_of (strip t)).drop 1).dropLast) else "",
      country := if (parts_of (strip t)).length > 1 then (parts_of (strip t)).getLastD "" else "",
      btype := match ty with | some u => strip u | none => "",
      lat := (match co with
        | none => (("", "") : String × String)
        | some c => if strContains (strip c) "," then split_once (strip c) else ("", "")).1,
      lon := (match co with
        | none => (("", "") : String × String)
        | some c => if strContains (strip c) "," then split_once (strip c) else ("", "")).2 } :=
  rfl

/-- Claim C1: a primary label whose trimmed non-empty comma segments are
`[A, B, C, D]` yields name `A`, address `B ++ ", " ++ C` and country `D`; a
label with exactly one segment `[A]` yields name `A` and empty address and
country. -/
theorem parse_card_positional_fields (t A B C D : String) (ty co : Option String) :
    (parts_of (strip t) = [A, B, C, D] →
      ∃ r, parse_card ⟨some t, ty, co⟩ = some r ∧
        r.name = A ∧ r.address = B ++ ", " ++ C ∧ r.country = D)
    ∧ (parts_of (strip t) = [A] →
      ∃ r, parse_card ⟨some t, ty, co⟩ = some r ∧
        r.name = A ∧ r.address = "" ∧ r.country = "") := by
  constructor
  · intro h
    rw [parse_card_eq, h]
    exact ⟨_, rfl, rfl, rfl, rfl⟩
  · intro h
    rw [parse_card_eq, h]
    exact ⟨_, rfl, rfl, rfl, rfl⟩

/-- Instantiation of `parse_card_positional_fields` at concrete labels. -/
theorem parse_card_positional_fields_witness :
    (∃ r, parse_card ⟨some "Shop, 12 Main St, Montreal, Canada", none, none⟩ = some r ∧
      r.name = "Shop" ∧ r.address = "12 Main St" ++ ", " ++ "Montreal" ∧ r.country = "Canada")
    ∧ (∃ r, parse_card ⟨some " Solo ", none, none⟩ = some r ∧
      r.name = "Solo" ∧ r.address = "" ∧ r.country = "") :=
  ⟨(parse_card_positional_fields "Shop, 12 Main St, Montreal, Canada"
      "Shop" "12 Main St" "Montreal" "Canada" none none).1 (by decide),
   (parse_card_positional_fields " Solo " "Solo" "" "" "" none none).2 (by decide)⟩

/-- Claim C3: when the `p.coords` sub-node is absent, or present with a text
whose stripped form contains no comma, latitude and longitude are both empty;
for the coordinate text `"45.0, -73.0"` they are `"45.0"` and `"-73.0"`. -/
theorem parse_card_coords (lbl : String) (ty co : Option String) :
    (co = none →
      ∃ r, parse_card ⟨some lbl, ty, co⟩ = some r ∧ r.lat = "" ∧ r.lon = "")
    ∧ (∀ c, co = some c → strContains (strip c) "," = false →
      ∃ r, parse_card ⟨some lbl, ty, co⟩ = some r ∧ r.lat = "" ∧ r.lon = "")
    ∧ (∃ r, parse_card ⟨some lbl, ty, some "45.0, -73.0"⟩ = some r ∧
      r.lat = "45.0" ∧ r.lon = "-73.0") := by
  refine ⟨?_, ?_, ?_⟩
  · rintro rfl
    exact ⟨_, rfl, rfl, rfl⟩
  · rintro c rfl hcomma
    refine ⟨_, parse_card_eq lbl ty (some c), ?_, ?_⟩ <;> simp [hcomma]
  · exact ⟨_, parse_card_eq lbl ty (some "45.0, -73.0"), rfl, rfl⟩

/-- Instantiation of `parse_card_coords` at a concrete card. -/
theorem parse_card_coords_witness :
    (∃ r, parse_card ⟨some "Shop, Canada", none, none⟩ = some r ∧ r.lat = "" ∧ r.lon = "")
    ∧ (∃ r, parse_card ⟨some "Shop, Canada", none, some "no comma here"⟩ = some r ∧
      r.lat = "" ∧ r.lon = "")
    ∧ (∃ r, parse_card ⟨some "Shop, Canada", none, some "45.0, -73.0"⟩ = some r ∧
      r.lat = "45.0" ∧ r.lon = "-73.0") :=
  ⟨(parse_card_coords "Shop, Canada" none none).1 rfl,
   (parse_card_coords "Shop, Canada" none (some "no comma here")).2.1
      "no comma here" rfl (by decide),
   (parse_card_coords "Shop, Canada" none none).2.2⟩

/-- Claim C10: a card whose `span.name` sub-node is present but whose text has
no non-empty comma segment (it strips to nothing, or is only commas and
whitespace) is not skipped: `parse_cards` still emits a record for it, with
empty name, address and country. -/
theorem empty_label_still_emitted (t : String) (ty co : Option String)
    (h : parts_of (strip t) = []) :
    ∃ r, parse_card ⟨some t, ty, co⟩ = some r ∧
      parse_cards [⟨some t, ty, co⟩] = [r] ∧
      r.name = "" ∧ r.address = "" ∧ r.country = "" := by
  refine ⟨_, parse_card_eq t ty co, rfl, ?_, ?_, ?_⟩
  · rw [h]
    rfl
  · rw [h]
    rfl
  · rw [h]
    rfl

/-- Instantiation of `empty_label_still_emitted` at a label that is only
commas and whitespace. -/
theorem empty_label_still_emitted_witness :
    ∃ r, parse_card ⟨some " , ,, ", none, none⟩ = some r ∧
      parse_cards [⟨some " , ,, ", none, none⟩] = [r] ∧
      r.name = "" ∧ r.address = "" ∧ r.country = "" :=
  empty_label_still_emitted " , ,, " none none (by decide)

/-- Claim C2: cards lacking the `span.name` sub-node are excluded from the
output — the output is what the extractor yields on the cards that have the
sub-node — and the output length is the card count minus the number of skipped
cards. -/
theorem missing_label_skipped (cards : List Card) :
    parse_cards cards = parse_cards (cards.filter fun c => c.name_full.isSome)
    ∧ (parse_cards cards).length
        = cards.length - (cards.filter fun c => c.name_full.isNone).length := by
  induction cards with
  | nil => exact ⟨rfl, rfl⟩
  | cons c cs ih =>
    obtain ⟨ih1, ih2⟩ := ih
    obtain ⟨nf, tt, ct⟩ := c
    have hle := List.length_filter_le (fun c => c.name_full.isNone) cs
    cases nf with
    | none =>
      refine ⟨?_, ?_⟩
      · simpa [parse_cards, List.filterMap_cons, List.filter_cons, parse_card] using ih1
      · simp only [parse_cards, List.filterMap_cons, List.filter_cons] at ih2 ⊢
        simp [parse_card]
        omega
    | some s =>
      refine ⟨?_, ?_⟩
      · simpa [parse_cards, List.filterMap_cons, List.filter_cons, parse_card_eq] using ih1
      · simp only [parse_cards, List.filterMap_cons, List.filter_cons] at ih2 ⊢
        simp [parse_card_eq]
        omega

/-- Claim C4: the route handler aborts a request exactly when its resource
type is `image`, `font` or `media`, or its url contains one of the blocked
host substrings. -/
theorem route_aborts_iff (resource_type url : String) :
    route_aborts resource_type url = true ↔
      ((resource_type = "image" ∨ resource_type = "font" ∨ resource_type = "media")
        ∨ ∃ h, h ∈ BLOCK_HOST_PATTERNS ∧ strContains url h = true) := by
  simp [route_aborts, should_block, BLOCK_RESOURCE_TYPES, List.any_eq_true]

/-- Instantiation of `route_aborts_iff`: an image request to an allowed host
is aborted, a document request to a blocked tile host is aborted, and a
document request to the Nominatim search page itself is not. -/
theorem route_aborts_iff_witness :
    route_aborts "image" "https://nominatim.openstreetmap.org/img.png" = true
    ∧ route_aborts "document" "https://tile.openstreetmap.org/1/1/1.png" = true
    ∧ route_aborts "document" "https://nominatim.openstreetmap.org/ui/search.html" = false :=
  ⟨(route_aborts_iff "image" "https://nominatim.openstreetmap.org/img.png").mpr
      (Or.inl (Or.inl rfl)),
   (route_aborts_iff "document" "https://tile.openstreetmap.org/1/1/1.png").mpr
      (Or.inr ⟨"tile.openstreetmap.org", by decide, by decide⟩),
   by decide⟩

/-! Theorems about the acquisition controller. -/

/-- Claim C5: when the first extraction of the first attempt yields no
records but the re-extraction after the grace delay yields some, the run
returns those records from attempt 1 — the grace re-check consumes no second
attempt. -/
theorem grace_recheck_free (env : Nat → AttemptBehavior) (N : Nat)
    (hN : 1 ≤ N) (hw : (env 1).waits_ok = true)
    (h1 : (env 1).parse1 = []) (h2 : (env 1).parse2 ≠ []) :
    (scrape_with_playwright env N).result = Except.ok ((env 1).parse2, 1)
    ∧ (scrape_with_playwright env N).attempts_run = 1 := by
  obtain ⟨m, rfl⟩ : ∃ m, N = m + 1 := ⟨N - 1, (Nat.succ_pred_eq_of_pos hN).symm⟩
  constructor <;> simp [scrape_with_playwright, scrape_go, hw, h1, h2]

/-- Instantiation of `grace_recheck_free` with a mock session that is empty
before the grace delay and non-empty after it. -/
theorem grace_recheck_free_witness :
    (scrape_with_playwright
        (fun _ => ⟨true, [], [⟨"A", "", "", "", "", ""⟩], true, true⟩) 3).result
      = Except.ok ([⟨"A", "", "", "", "", ""⟩], 1)
    ∧ (scrape_with_playwright
        (fun _ => ⟨true, [], [⟨"A", "", "", "", "", ""⟩], true, true⟩) 3).attempts_run = 1 :=
  grace_recheck_free _ 3 (by decide) rfl rfl (by decide)

/-- One-step unfolding of the retry loop at a positive remaining count. -/
theorem scrape_go_succ (env : Nat → AttemptBehavior) (N attempt remaining : Nat)
    (le : Option AttemptError) :
    scrape_go env N attempt (remaining + 1) le =
      if (env attempt).waits_ok then
        if (env attempt).parse1 = [] then
          if (env attempt).parse2 = [] then
            let o := scrape_go env N (attempt + 1) remaining (some AttemptError.noCards)
            { o with attempts_run := o.attempts_run + 1 }
          else
            { result := Except.ok ((env attempt).parse2, attempt),
              closes := 1, attempts_run := 1 }
        else
          { result := Except.ok ((env attempt).parse1, attempt),
            closes := 1, attempts_run := 1 }
      else
        let o := scrape_go env N (attempt + 1) remaining (some AttemptError.timeout)
        { o with attempts_run := o.attempts_run + 1 } :=
  rfl

/-- All-empty attempts make `scrape_go` run through its remaining iterations
and end in the terminal failure that carries `max_retries` and the empty
result error. -/
theorem scrape_go_all_empty (env : Nat → AttemptBehavior) (N : Nat)
    (hw : ∀ i, (env i).waits_ok = true) (h1 : ∀ i, (env i).parse1 = [])
    (h2 : ∀ i, (env i).parse2 = []) :
    ∀ (r a : Nat) (le : Option AttemptError),
      scrape_go env N a (r + 1) le =
        { result := Except.error ⟨N, some AttemptError.noCards⟩,
          closes := 1, attempts_run := r + 1 } := by
  intro r
  induction r with
  | zero =>
    intro a le
    rw [scrape_go_succ]
    simp [scrape_go, hw a, h1 a, h2 a]
  | succ n ih =>
    intro a le
    rw [scrape_go_succ]
    simp [hw a, h1 a, h2 a, ih]

/-- Claim C6: when every attempt's extraction is empty even after the grace
re-check, the controller runs exactly `N` attempts and ends with the single
terminal error carrying the attempt count and the last attempt's underlying
error (the empty-result error). -/
theorem exhausted_retries (env : Nat → AttemptBehavior) (N : Nat)
    (hN : 1 ≤ N) (hw : ∀ i, (env i).waits_ok = true)
    (h1 : ∀ i, (env i).parse1 = []) (h2 : ∀ i, (env i).parse2 = []) :
    (scrape_with_playwright env N).result
      = Except.error ⟨N, some AttemptError.noCards⟩
    ∧ (scrape_with_playwright env N).attempts_run = N := by
  obtain ⟨m, rfl⟩ : ∃ m, N = m + 1 := ⟨N - 1, (Nat.succ_pred_eq_of_pos hN).symm⟩
  rw [scrape_with_playwright, scrape_go_all_empty env (m + 1) hw h1 h2 m 1 none]
  exact ⟨rfl, rfl⟩

/-- Instantiation of `exhausted_retries` with a mock session that always
yields zero cards, at `N = 3`. -/
theorem exhausted_retries_witness :
    (scrape_with_playwright (fun _ => ⟨true, [], [], true, true⟩) 3).result
      = Except.error ⟨3, some AttemptError.noCards⟩
    ∧ (scrape_with_playwright (fun _ => ⟨true, [], [], true, true⟩) 3).attempts_run = 3 :=
  exhausted_retries _ 3 (by decide) (fun _ => rfl) (fun _ => rfl) (fun _ => rfl)

/-- The outcome of `scrape_go` is a function of the waits and extraction
results alone: the screenshot and reload outcomes are swallowed. -/
theorem scrape_go_congr (env env2 : Nat → AttemptBehavior) (N : Nat)
    (h : ∀ i, (env i).waits_ok = (env2 i).waits_ok
      ∧ (env i).parse1 = (env2 i).parse1 ∧ (env i).parse2 = (env2 i).parse2) :
    ∀ (r a : Nat) (le : Option AttemptError),
      scrape_go env N a r le = scrape_go env2 N a r le := by
  intro r
  induction r with
  | zero => intro a le; rfl
  | succ n ih =>
    intro a le
    obtain ⟨hw, hp1, hp2⟩ := h a
    simp only [scrape_go]
    rw [hw, hp1, hp2]
    simp only [ih]

/-- Claim C7: a failure of the per-attempt diagnostic screenshot or of the
between-attempt reload is fully swallowed — the run's whole outcome (result,
teardown count and attempts entered) is unchanged by those outcomes, so the
loop proceeds identically. -/
theorem best_effort_failures_swallowed (env env2 : Nat → AttemptBehavior) (N : Nat)
    (h : ∀ i, (env i).waits_ok = (env2 i).waits_ok
      ∧ (env i).parse1 = (env2 i).parse1 ∧ (env i).parse2 = (env2 i).parse2) :
    scrape_with_playwright env N = scrape_with_playwright env2 N := by
  rw [scrape_with_playwright, scrape_with_playwright, scrape_go_congr env env2 N h]

/-- Instantiation of `best_effort_failures_swallowed`: a session whose
screenshot and reload always fail behaves like one where they always
succeed. -/
theorem best_effort_failures_swallowed_witness :
    scrape_with_playwright (fun _ => ⟨true, [], [], false, false⟩) 2
      = scrape_with_playwright (fun _ => ⟨true, [], [], true, true⟩) 2 :=
  best_effort_failures_swallowed _ _ 2 (fun _ => ⟨rfl, rfl, rfl⟩)

/-- The browser teardown runs exactly once on every path through the loop. -/
theorem scrape_go_closes (env : Nat → AttemptBehavior) (N : Nat) :
    ∀ (r a : Nat) (le : Option AttemptError), (scrape_go env N a r le).closes = 1 := by
  intro r
  induction r with
  | zero => intro a le; rfl
  | succ n ih =>
    intro a le
    simp only [scrape_go]
    split
    · split
      · split
        · exact ih _ _
        · rfl
      · rfl
    · exact ih _ _

/-- Claim C9: every terminating run, successful or exhausted, tears the
browser session down exactly once. -/
theorem browser_closed_once (env : Nat → AttemptBehavior) (N : Nat) :
    (scrape_with_playwright env N).closes = 1 :=
  scrape_go_closes env N N 1 none

/-- A terminal failure of `scrape_go` always carries the configured
`max_retries` as its attempt count. -/
theorem scrape_go_error_retries (env : Nat → AttemptBehavior) (N : Nat) :
    ∀ (r a : Nat) (le : Option AttemptError) (f : ScrapeFailure),
      (scrape_go env N a r le).result = Except.error f → f.max_retries = N := by
  intro r
  induction r with
  | zero =>
    intro a le f hf
    simp only [scrape_go, Except.error.injEq] at hf
    rw [← hf]
  | succ n ih =>
    intro a le f hf
    simp only [scrape_go] at hf
    split at hf
    · split at hf
      · split at hf
        · exact ih _ _ _ hf
        · exact absurd hf (by simp)
      · exact absurd hf (by simp)
    · exact ih _ _ _ hf

/-- Claim C8: a run of `main` either writes the CSV (header plus one row per
record) and prints the success summary with no failure, or propagates the one
terminal failure carrying the attempt count `3`, writing no output file and
printing no summary. -/
theorem run_all_or_nothing (env : Nat → AttemptBehavior) :
    (∃ data k, (scrape_with_playwright env 3).result = Except.ok (data, k)
      ∧ main_run env = { out_file := some (save_csv data),
                         summary := some ("Saved " ++ toString data.length
                           ++ " records to " ++ OUT_CSV),
                         failure := none })
    ∨ (∃ f, (scrape_with_playwright env 3).result = Except.error f
      ∧ f.max_retries = 3
      ∧ main_run env = { out_file := none, summary := none, failure := some f }) := by
  cases hres : (scrape_with_playwright env 3).result with
  | ok p =>
    left
    exact ⟨p.1, p.2, rfl, by simp only [main_run, hres]⟩
  | error f =>
    right
    exact ⟨f, rfl, scrape_go_error_retries env 3 3 1 none f hres,
      by simp only [main_run, hres]⟩

end NominatimScraper
